import Mathlib

/-!
Verification of the CellProfiler `Smooth` module
(`cellprofiler/modules/smooth.py`).

The module's `run` method resolves an artifact diameter (automatically from
the image shape, or from an explicit setting), derives a Gaussian standard
deviation and a filter radius from it, and dispatches on the smoothing-method
string to one of five filters.  The dispatch logic lives in `smooth.py` and is
embedded faithfully below.  The numeric filters themselves
(`smooth_with_function_and_mask`, `median_filter`, `bilateral_filter`,
`fit_polynomial`, `circular_average_filter` from `cellprofiler.cpmath`) are
not part of this repository snapshot; they are modelled from the spec's
contracts (sections 4.2-4.7), parametrised over the transcendental weight
kernels (Gaussian weights are not rational) and over the least-squares
coefficient solver.

Images are 2D grids of rational intensities; masks are 2D grids of booleans.
-/

abbrev Grid := List (List ℚ)

abbrev MaskGrid := List (List Bool)

/-- The shape (height, width) of a grid, as numpy's `array.shape` reports it
for a 2D array: number of rows, and length of the first row. -/
def gridShape (g : Grid) : ℕ × ℕ := (g.length, (g.headD []).length)

/-- Intensity at integer coordinates, 0 outside the grid (never consulted for
out-of-frame pixels, which are invalid by `validAt`). -/
def pixelAt (g : Grid) (i j : ℤ) : ℚ :=
  if 0 ≤ i ∧ 0 ≤ j then (g.getD i.toNat []).getD j.toNat 0 else 0

/-- Validity of a pixel: in frame and marked true by the mask.  Out-of-frame
neighbours are invalid (spec 4.2: zero-padding with mask=false). -/
def validAt (m : MaskGrid) (i j : ℤ) : Bool :=
  decide (0 ≤ i) && decide (0 ≤ j) && ((m.getD i.toNat []).getD j.toNat false)

/-- All integer offsets (di, dj) with |di| ≤ R and |dj| ≤ R. -/
def offsetList (R : ℕ) : List (ℤ × ℤ) :=
  (List.range (2 * R + 1)).flatMap fun a =>
    (List.range (2 * R + 1)).map fun b => ((a : ℤ) - (R : ℤ), (b : ℤ) - (R : ℤ))

/-- Offsets inside a disc of rational radius r (spec 4.4/4.5 neighbourhood). -/
def discOffsets (r : ℚ) : List (ℤ × ℤ) :=
  (offsetList ⌈r⌉.toNat).filter fun p =>
    decide ((p.1 : ℚ) ^ 2 + (p.2 : ℚ) ^ 2 ≤ r ^ 2)

/-- Insertion into a sorted list of rationals. -/
def insertSorted (x : ℚ) : List ℚ → List ℚ
  | [] => [x]
  | y :: ys => if x ≤ y then x :: y :: ys else y :: insertSorted x ys

/-- Insertion sort for rationals. -/
def sortQ (l : List ℚ) : List ℚ := l.foldr insertSorted []

/-- Median with the spec's even-count convention (4.4): the average of the two
central order statistics; 0 on the empty list (callers guard emptiness). -/
def medianOf (l : List ℚ) : ℚ :=
  let s := sortQ l
  if s.length = 0 then 0
  else if s.length % 2 = 1 then s.getD (s.length / 2) 0
  else (s.getD (s.length / 2 - 1) 0 + s.getD (s.length / 2) 0) / 2

/-- Build an output grid of the same shape as `g`, one value per pixel. -/
def pixelMap (g : Grid) (f : ℕ → ℕ → ℚ) : Grid :=
  (List.range g.length).map fun i =>
    (List.range (g.headD []).length).map fun j => f i j

/-- Modelled from the spec: the Mask-Aware Convolution Primitive (4.2), used
by `smooth_with_function_and_mask` and `circular_average_filter` of
`cellprofiler.cpmath`, which are absent from this snapshot.  At each pixel the
kernel is re-normalised over valid neighbours; with zero valid neighbours the
output is the input value unchanged (identity fallback). -/
def maskAwareConvolve (K : ℤ → ℤ → ℚ) (R : ℕ) (g : Grid) (m : MaskGrid) : Grid :=
  pixelMap g fun i j =>
    let offs := (offsetList R).filter fun p => validAt m ((i : ℤ) + p.1) ((j : ℤ) + p.2)
    if offs.isEmpty then pixelAt g (i : ℤ) (j : ℤ)
    else
      ((offs.map fun p => K p.1 p.2 * pixelAt g ((i : ℤ) + p.1) ((j : ℤ) + p.2)).sum) /
        ((offs.map fun p => K p.1 p.2).sum)

/-- Modelled from the spec: `cellprofiler.cpmath.filter.median_filter` (4.4),
absent from this snapshot.  Median of valid intensities in the disc of the
given radius; identity fallback with zero valid pixels. -/
def median_filter (g : Grid) (m : MaskGrid) (radius : ℚ) : Grid :=
  pixelMap g fun i j =>
    let vals := (discOffsets radius).filterMap fun p =>
      if validAt m ((i : ℤ) + p.1) ((j : ℤ) + p.2) then
        some (pixelAt g ((i : ℤ) + p.1) ((j : ℤ) + p.2))
      else none
    if vals.isEmpty then pixelAt g (i : ℤ) (j : ℤ) else medianOf vals

/-- Modelled from the spec: `cellprofiler.cpmath.filter.bilateral_filter`
(4.6), absent from this snapshot.  Weighted by a spatial kernel `wS sigma` and
an intensity kernel `wI sigmaRange` over valid neighbours within a spatial
radius proportional to sigma; identity fallback.  The Gaussian weight families
are parameters because they are transcendental. -/
def bilateral_filter (wS : ℚ → ℤ → ℤ → ℚ) (wI : ℚ → ℚ → ℚ)
    (g : Grid) (m : MaskGrid) (sigma sigma_range : ℚ) : Grid :=
  pixelMap g fun i j =>
    let offs := (discOffsets (3 * sigma)).filter fun p =>
      validAt m ((i : ℤ) + p.1) ((j : ℤ) + p.2)
    if offs.isEmpty then pixelAt g (i : ℤ) (j : ℤ)
    else
      let w := fun (p : ℤ × ℤ) =>
        wS sigma p.1 p.2 *
          wI sigma_range |pixelAt g ((i : ℤ) + p.1) ((j : ℤ) + p.2) - pixelAt g (i : ℤ) (j : ℤ)|
      ((offs.map fun p => w p * pixelAt g ((i : ℤ) + p.1) ((j : ℤ) + p.2)).sum) /
        ((offs.map w).sum)

/-- Modelled from the spec: `cellprofiler.cpmath.filter.circular_average_filter`
(4.5), absent from this snapshot.  Mean of valid intensities in the disc;
identity fallback. -/
def circular_average_filter (g : Grid) (radius : ℚ) (m : MaskGrid) : Grid :=
  pixelMap g fun i j =>
    let vals := (discOffsets radius).filterMap fun p =>
      if validAt m ((i : ℤ) + p.1) ((j : ℤ) + p.2) then
        some (pixelAt g ((i : ℤ) + p.1) ((j : ℤ) + p.2))
      else none
    if vals.isEmpty then pixelAt g (i : ℤ) (j : ℤ) else vals.sum / (vals.length : ℚ)

/-- The number of valid (true) pixels of a mask. -/
def countValid (m : MaskGrid) : ℕ :=
  (m.map fun row => row.countP id).sum

/-- Modelled from the spec: `cellprofiler.cpmath.smooth.fit_polynomial` (4.7),
absent from this snapshot.  Degenerate case first: fewer than 6 valid pixels
is an underdetermined system and must fail with a clear error (spec 4.7,
error kind UnderdeterminedFit in spec 7) rather than return an arbitrary fit.
Otherwise the least-squares solver `pf` yields coefficients (A, B, C, D, E, F)
from the image and mask, and the fitted quadratic
A x² + B y² + C xy + D x + E y + F is evaluated at every pixel (x = column,
y = row). -/
def fit_polynomial (pf : Grid → MaskGrid → ℚ × ℚ × ℚ × ℚ × ℚ × ℚ)
    (g : Grid) (m : MaskGrid) : Except String Grid :=
  if countValid m < 6 then
    Except.error "UnderdeterminedFit: fewer than 6 valid pixels"
  else
    let co := pf g m
    Except.ok (pixelMap g fun i j =>
      co.1 * (j : ℚ) ^ 2 + co.2.1 * (i : ℚ) ^ 2 + co.2.2.1 * (j : ℚ) * (i : ℚ) +
        co.2.2.2.1 * (j : ℚ) + co.2.2.2.2.1 * (i : ℚ) + co.2.2.2.2.2)

/-- A CellProfiler image: pixel data, mask, and an optional parent image
(as `cpi.Image(..., parent_image = ...)` records it). -/
inductive CPImage : Type where
  | mk (pixel_data : Grid) (mask : MaskGrid) (parent_image : Option CPImage)

def CPImage.pixel_data : CPImage → Grid
  | .mk p _ _ => p

def CPImage.mask : CPImage → MaskGrid
  | .mk _ m _ => m

def CPImage.parent_image : CPImage → Option CPImage
  | .mk _ _ p => p

def FIT_POLYNOMIAL : String := "Fit Polynomial"

def MEDIAN_FILTER : String := "Median Filter"

def GAUSSIAN_FILTER : String := "Gaussian Filter"

def SMOOTH_KEEPING_EDGES : String := "Smooth Keeping Edges"

def CIRCULAR_AVERAGE_FILTER : String := "Circular Average Filter"

/-- The module's settings, as `Smooth.settings` lists them. -/
structure SmoothSettings where
  image_name : String
  filtered_image_name : String
  smoothing_method : String
  wants_automatic_object_size : Bool
  object_size : ℚ
  sigma_range : ℚ

/-- Lines 141-144 of `smooth.py`: the resolved artifact diameter.  With
automatic sizing, `min(30, max(1, np.mean(pixel_data.shape)/40))` where the
mean of the 2-tuple shape is (H + W)/2; otherwise the explicit setting. -/
def resolveObjectSize (auto : Bool) (explicitDiameter : ℚ) (shape : ℕ × ℕ) : ℚ :=
  if auto then min 30 (max 1 (((shape.1 : ℚ) + (shape.2 : ℚ)) / 2 / 40))
  else explicitDiameter

/-- The diameter `Smooth.run` resolves for given settings and input image. -/
def resolvedSize (s : SmoothSettings) (img : CPImage) : ℚ :=
  resolveObjectSize s.wants_automatic_object_size s.object_size
    (gridShape img.pixel_data)

/-- The filter invocation `Smooth.run` dispatches to: which filter, with which
arguments, in the argument order of the source call. -/
inductive FilterCall : Type where
  | gaussianCall (image : Grid) (mask : MaskGrid) (sigma : ℚ)
  | medianCall (image : Grid) (mask : MaskGrid) (radius : ℚ)
  | bilateralCall (image : Grid) (mask : MaskGrid) (sigma : ℚ) (sigma_range : ℚ)
  | polynomialCall (image : Grid) (mask : MaskGrid)
  | circularAverageCall (image : Grid) (radius : ℚ) (mask : MaskGrid)
  deriving DecidableEq

/-- The image argument of a filter invocation. -/
def FilterCall.baseImage : FilterCall → Grid
  | .gaussianCall g _ _ => g
  | .medianCall g _ _ => g
  | .bilateralCall g _ _ _ => g
  | .polynomialCall g _ => g
  | .circularAverageCall g _ _ => g

/-- Lines 141-165 of `smooth.py`: resolve the diameter, derive
`sigma = object_size / 2.35`, and dispatch on the smoothing-method string in
the source's branch order, raising `ValueError` on an unknown method. -/
def dispatch (s : SmoothSettings) (image : CPImage) : Except String FilterCall :=
  let pixel_data := image.pixel_data
  let object_size :=
    resolveObjectSize s.wants_automatic_object_size s.object_size (gridShape pixel_data)
  let sigma := object_size / 2.35
  if s.smoothing_method = GAUSSIAN_FILTER then
    Except.ok (FilterCall.gaussianCall pixel_data image.mask sigma)
  else if s.smoothing_method = MEDIAN_FILTER then
    Except.ok (FilterCall.medianCall pixel_data image.mask (object_size / 2 + 1))
  else if s.smoothing_method = SMOOTH_KEEPING_EDGES then
    Except.ok (FilterCall.bilateralCall pixel_data image.mask sigma s.sigma_range)
  else if s.smoothing_method = FIT_POLYNOMIAL then
    Except.ok (FilterCall.polynomialCall pixel_data image.mask)
  else if s.smoothing_method = CIRCULAR_AVERAGE_FILTER then
    Except.ok (FilterCall.circularAverageCall pixel_data (object_size / 2 + 1) image.mask)
  else
    Except.error ("Unsupported smoothing method: " ++ s.smoothing_method)

/-- Execute a dispatched filter invocation.  The Gaussian path is
`smooth_with_function_and_mask` with a Gaussian of the call's sigma truncated
at 3 sigma (spec 4.3); the weight families and coefficient solver are
parameters, as above.  The local filters are total (spec 4.2 and 4.4-4.6
prescribe the identity fallback); only the polynomial fit can fail, on an
underdetermined system (spec 4.7). -/
def applyFilterCall (wS : ℚ → ℤ → ℤ → ℚ) (wI : ℚ → ℚ → ℚ)
    (pf : Grid → MaskGrid → ℚ × ℚ × ℚ × ℚ × ℚ × ℚ) : FilterCall → Except String Grid
  | .gaussianCall g m sigma =>
      Except.ok (maskAwareConvolve (wS sigma) (⌈(3 : ℚ) * sigma⌉).toNat g m)
  | .medianCall g m radius => Except.ok (median_filter g m radius)
  | .bilateralCall g m sigma sigma_range =>
      Except.ok (bilateral_filter wS wI g m sigma sigma_range)
  | .polynomialCall g m => fit_polynomial pf g m
  | .circularAverageCall g radius m => Except.ok (circular_average_filter g radius m)

/-- Name lookup in an image set (first match wins). -/
def lookupImage : List (String × CPImage) → String → Option CPImage
  | [], _ => none
  | (n, im) :: rest, name => if n = name then some im else lookupImage rest name

/-- Whether an `Except` value is a success. -/
def exceptIsOk {ε α : Type} : Except ε α → Bool
  | Except.ok _ => true
  | Except.error _ => false

/-- Lines 137-168 of `smooth.py`: fetch the input image by name, dispatch to
a filter, and add the filtered image - constructed with the input image as its
parent, inheriting its mask - to the image set under the output name.
The `image_set.add` semantics (insertion of a new entry) and the parent-mask
inheritance of `cpi.Image` are modelled from the spec, their code being
outside this snapshot; a filter failure (the polynomial fit's
UnderdeterminedFit) propagates to the caller, per spec 7. -/
def Smooth.run (wS : ℚ → ℤ → ℤ → ℚ) (wI : ℚ → ℚ → ℚ)
    (pf : Grid → MaskGrid → ℚ × ℚ × ℚ × ℚ × ℚ × ℚ)
    (s : SmoothSettings) (image_set : List (String × CPImage)) :
    Except String (List (String × CPImage)) :=
  match lookupImage image_set s.image_name with
  | none => Except.error ("No image named " ++ s.image_name)
  | some image =>
    match dispatch s image with
    | Except.error e => Except.error e
    | Except.ok c =>
        match applyFilterCall wS wI pf c with
        | Except.error e => Except.error e
        | Except.ok output_pixels =>
            let output_image := CPImage.mk output_pixels image.mask (some image)
            Except.ok (image_set ++ [(s.filtered_image_name, output_image)])

/-- Trivial spatial weight family, for concrete evaluation. -/
def wS0 : ℚ → ℤ → ℤ → ℚ := fun _ _ _ => 1

/-- Trivial intensity weight family, for concrete evaluation. -/
def wI0 : ℚ → ℚ → ℚ := fun _ _ => 1

/-- Trivial least-squares solver, for concrete evaluation. -/
def pf0 : Grid → MaskGrid → ℚ × ℚ × ℚ × ℚ × ℚ × ℚ := fun _ _ => (0, 0, 0, 0, 0, 0)

/-- A 1x1 test image. -/
def img0 : CPImage := CPImage.mk [[1/2]] [[true]] none

/-- A one-image test image set. -/
def iset0 : List (String × CPImage) := [("None", img0)]

/-- Test settings: polynomial fit on `img0`. -/
def s0 : SmoothSettings :=
  { image_name := "None"
    filtered_image_name := "FilteredImage"
    smoothing_method := FIT_POLYNOMIAL
    wants_automatic_object_size := true
    object_size := 16
    sigma_range := 1/10 }

/-- Test settings: manual mode with a non-positive diameter, median method. -/
def s3 : SmoothSettings :=
  { image_name := "None"
    filtered_image_name := "FilteredImage"
    smoothing_method := MEDIAN_FILTER
    wants_automatic_object_size := false
    object_size := -1
    sigma_range := 1/10 }

/-- A 2x3 test image whose mask has 6 valid pixels, enough for the
polynomial fit to be determined. -/
def img1 : CPImage :=
  CPImage.mk [[0, 0, 0], [0, 0, 0]]
    [[true, true, true], [true, true, true]] none

/-- An image set holding `img1`. -/
def iset1 : List (String × CPImage) := [("None", img1)]

/-- `pixelMap` preserves the grid shape. -/
theorem gridShape_pixelMap (g : Grid) (f : ℕ → ℕ → ℚ) :
    gridShape (pixelMap g f) = gridShape g := by
  cases g with
  | nil => rfl
  | cons r t =>
      simp [pixelMap, gridShape, List.range_succ_eq_map]

/-- Whenever a filter invocation succeeds, the output grid has the shape of
the invocation's image argument. -/
theorem gridShape_applyFilterCall (wS : ℚ → ℤ → ℤ → ℚ) (wI : ℚ → ℚ → ℚ)
    (pf : Grid → MaskGrid → ℚ × ℚ × ℚ × ℚ × ℚ × ℚ) (c : FilterCall) (out : Grid)
    (h : applyFilterCall wS wI pf c = Except.ok out) :
    gridShape out = gridShape c.baseImage := by
  cases c with
  | polynomialCall g m =>
      simp only [applyFilterCall] at h
      unfold fit_polynomial at h
      split at h
      · cases h
      · simp only [Except.ok.injEq] at h
        subst h
        exact gridShape_pixelMap g _
  | gaussianCall g m sigma =>
      simp only [applyFilterCall, Except.ok.injEq] at h
      subst h
      exact gridShape_pixelMap g _
  | medianCall g m radius =>
      simp only [applyFilterCall, Except.ok.injEq] at h
      subst h
      exact gridShape_pixelMap g _
  | bilateralCall g m sigma sr =>
      simp only [applyFilterCall, Except.ok.injEq] at h
      subst h
      exact gridShape_pixelMap g _
  | circularAverageCall g radius m =>
      simp only [applyFilterCall, Except.ok.injEq] at h
      subst h
      exact gridShape_pixelMap g _

/-- A successful dispatch passes the input image's pixel data to the filter. -/
theorem dispatch_ok_baseImage (s : SmoothSettings) (img : CPImage) (c : FilterCall)
    (h : dispatch s img = Except.ok c) : c.baseImage = img.pixel_data := by
  unfold dispatch at h
  split at h
  · cases h; rfl
  · split at h
    · cases h; rfl
    · split at h
      · cases h; rfl
      · split at h
        · cases h; rfl
        · split at h
          · cases h; rfl
          · cases h

/-- A name found in a prefix of an image set is still found after appending. -/
theorem lookupImage_append_of_some (l lr : List (String × CPImage)) (n : String)
    (img : CPImage) (h : lookupImage l n = some img) :
    lookupImage (l ++ lr) n = some img := by
  induction l with
  | nil => simp [lookupImage] at h
  | cons p t ih =>
      obtain ⟨a, b⟩ := p
      by_cases hn : a = n
      · simp only [lookupImage, hn, if_pos rfl] at h ⊢
        exact h
      · simp only [lookupImage, hn, if_neg hn] at h ⊢
        exact ih h

/-- For any method other than Smooth Keeping Edges, the dispatch result does
not depend on the sigma-range setting. -/
theorem dispatch_sigma_range (s : SmoothSettings) (img : CPImage) (r₁ r₂ : ℚ)
    (h : s.smoothing_method ≠ SMOOTH_KEEPING_EDGES) :
    dispatch {s with sigma_range := r₁} img = dispatch {s with sigma_range := r₂} img := by
  unfold dispatch
  by_cases h1 : s.smoothing_method = GAUSSIAN_FILTER <;>
    by_cases h2 : s.smoothing_method = MEDIAN_FILTER <;>
      by_cases h3 : s.smoothing_method = FIT_POLYNOMIAL <;>
        by_cases h4 : s.smoothing_method = CIRCULAR_AVERAGE_FILTER <;>
          simp [h1, h2, h3, h4, h] <;> rfl

/-- Polynomial-fit dispatch ignores the sizing settings entirely. -/
theorem dispatch_poly_size (s : SmoothSettings) (img : CPImage) (a : Bool) (d : ℚ) :
    dispatch {s with smoothing_method := FIT_POLYNOMIAL,
                     wants_automatic_object_size := a, object_size := d} img =
      Except.ok (FilterCall.polynomialCall img.pixel_data img.mask) := by
  rfl

/-- `Smooth.run` agrees on two settings records that name the same images and
induce the same dispatch. -/
theorem run_congr (wS : ℚ → ℤ → ℤ → ℚ) (wI : ℚ → ℚ → ℚ)
    (pf : Grid → MaskGrid → ℚ × ℚ × ℚ × ℚ × ℚ × ℚ)
    (s₁ s₂ : SmoothSettings) (iset : List (String × CPImage))
    (hin : s₁.image_name = s₂.image_name)
    (hout : s₁.filtered_image_name = s₂.filtered_image_name)
    (hd : ∀ img, dispatch s₁ img = dispatch s₂ img) :
    Smooth.run wS wI pf s₁ iset = Smooth.run wS wI pf s₂ iset := by
  unfold Smooth.run
  rw [hin]
  cases lookupImage iset s₂.image_name with
  | none => rfl
  | some img =>
      dsimp only
      rw [hd img]
      cases dispatch s₂ img with
      | error e => rfl
      | ok c =>
          dsimp only
          cases applyFilterCall wS wI pf c with
          | error e => rfl
          | ok out => rw [hout]

/-- Claim C1: for every method tag in the closed set, the dispatcher invokes
exactly the corresponding filter with the resolved parameters - Gaussian gets
(image, mask, sigma) and is the mask-aware convolution of a Gaussian of
standard deviation sigma; Median gets (image, mask, radius); Bilateral gets
(image, mask, sigma, sigmaRange); PolynomialFit gets (image, mask) only;
CircularAverage gets (image, radius, mask). -/
theorem dispatch_routes_each_method (wS : ℚ → ℤ → ℤ → ℚ) (wI : ℚ → ℚ → ℚ)
    (pf : Grid → MaskGrid → ℚ × ℚ × ℚ × ℚ × ℚ × ℚ)
    (s : SmoothSettings) (img : CPImage) :
    (dispatch {s with smoothing_method := GAUSSIAN_FILTER} img =
      Except.ok (FilterCall.gaussianCall img.pixel_data img.mask
        (resolvedSize s img / 2.35)) ∧
     dispatch {s with smoothing_method := MEDIAN_FILTER} img =
      Except.ok (FilterCall.medianCall img.pixel_data img.mask
        (resolvedSize s img / 2 + 1)) ∧
     dispatch {s with smoothing_method := SMOOTH_KEEPING_EDGES} img =
      Except.ok (FilterCall.bilateralCall img.pixel_data img.mask
        (resolvedSize s img / 2.35) s.sigma_range) ∧
     dispatch {s with smoothing_method := FIT_POLYNOMIAL} img =
      Except.ok (FilterCall.polynomialCall img.pixel_data img.mask) ∧
     dispatch {s with smoothing_method := CIRCULAR_AVERAGE_FILTER} img =
      Except.ok (FilterCall.circularAverageCall img.pixel_data
        (resolvedSize s img / 2 + 1) img.mask)) ∧
    (∀ g m sigma, applyFilterCall wS wI pf (FilterCall.gaussianCall g m sigma) =
      Except.ok (maskAwareConvolve (wS sigma) (⌈(3 : ℚ) * sigma⌉).toNat g m)) ∧
    (∀ g m radius, applyFilterCall wS wI pf (FilterCall.medianCall g m radius) =
      Except.ok (median_filter g m radius)) ∧
    (∀ g m sigma sr, applyFilterCall wS wI pf (FilterCall.bilateralCall g m sigma sr) =
      Except.ok (bilateral_filter wS wI g m sigma sr)) ∧
    (∀ g m, applyFilterCall wS wI pf (FilterCall.polynomialCall g m) =
      fit_polynomial pf g m) ∧
    (∀ g m radius, applyFilterCall wS wI pf (FilterCall.circularAverageCall g radius m) =
      Except.ok (circular_average_filter g radius m)) := by
  refine ⟨⟨rfl, rfl, rfl, rfl, rfl⟩, fun g m sigma => rfl, fun g m radius => rfl,
    fun g m sigma sr => rfl, fun g m => rfl, fun g m radius => rfl⟩

/-- Claim C2: with automatic sizing, the resolved object size for an image of
shape (H, W) equals min(30, max(1, mean(H, W)/40)), and in particular it lies
in the closed interval [1, 30] for every shape. -/
theorem auto_object_size_formula_and_bounds (H W : ℕ) (d : ℚ) :
    resolveObjectSize true d (H, W) = min 30 (max 1 (((H : ℚ) + (W : ℚ)) / 2 / 40)) ∧
    1 ≤ resolveObjectSize true d (H, W) ∧
    resolveObjectSize true d (H, W) ≤ 30 := by
  refine ⟨rfl, ?_, ?_⟩
  · unfold resolveObjectSize
    simp only [if_true]
    exact le_min (by norm_num) (le_max_left 1 _)
  · unfold resolveObjectSize
    simp only [if_true]
    exact min_le_left 30 _

/-- Claim C6: for the Median and Circular Average methods, the radius passed
to the filter equals objectSize/2 + 1, where objectSize is the resolved
diameter (automatic or manual). -/
theorem median_circular_radius (s : SmoothSettings) (img : CPImage) :
    dispatch {s with smoothing_method := MEDIAN_FILTER} img =
      Except.ok (FilterCall.medianCall img.pixel_data img.mask
        (resolveObjectSize s.wants_automatic_object_size s.object_size
          (gridShape img.pixel_data) / 2 + 1)) ∧
    dispatch {s with smoothing_method := CIRCULAR_AVERAGE_FILTER} img =
      Except.ok (FilterCall.circularAverageCall img.pixel_data
        (resolveObjectSize s.wants_automatic_object_size s.object_size
          (gridShape img.pixel_data) / 2 + 1) img.mask) := by
  exact ⟨rfl, rfl⟩

/-- Claim C7: the Gaussian standard deviation handed to the Gaussian and
Bilateral filters equals objectSize / 2.35, where objectSize is the resolved
diameter (automatic or manual). -/
theorem gaussian_bilateral_sigma (s : SmoothSettings) (img : CPImage) :
    dispatch {s with smoothing_method := GAUSSIAN_FILTER} img =
      Except.ok (FilterCall.gaussianCall img.pixel_data img.mask
        (resolveObjectSize s.wants_automatic_object_size s.object_size
          (gridShape img.pixel_data) / 2.35)) ∧
    dispatch {s with smoothing_method := SMOOTH_KEEPING_EDGES} img =
      Except.ok (FilterCall.bilateralCall img.pixel_data img.mask
        (resolveObjectSize s.wants_automatic_object_size s.object_size
          (gridShape img.pixel_data) / 2.35) s.sigma_range) := by
  exact ⟨rfl, rfl⟩

/-- Claim C3, counterexample: in manual mode with the non-positive diameter
-1 and the Median method, `Smooth.run` succeeds instead of failing with a
configuration error - the code performs no validation of the diameter. -/
theorem manual_nonpositive_diameter_runs_ok :
    exceptIsOk (Smooth.run wS0 wI0 pf0 s3 iset0) = true := by
  rfl

/-- Claim C3 (amended): in manual mode the explicitly supplied diameter is
used exactly as provided, with no positivity validation - for every method the
dispatcher succeeds and invokes the corresponding filter with parameters
derived from the diameter, even when the diameter is non-positive. -/
theorem manual_mode_has_no_diameter_validation (s : SmoothSettings) (img : CPImage)
    (d : ℚ) (_hd : d ≤ 0) :
    resolveObjectSize false d (gridShape img.pixel_data) = d ∧
    dispatch {s with smoothing_method := GAUSSIAN_FILTER,
                     wants_automatic_object_size := false, object_size := d} img =
      Except.ok (FilterCall.gaussianCall img.pixel_data img.mask (d / 2.35)) ∧
    dispatch {s with smoothing_method := MEDIAN_FILTER,
                     wants_automatic_object_size := false, object_size := d} img =
      Except.ok (FilterCall.medianCall img.pixel_data img.mask (d / 2 + 1)) ∧
    dispatch {s with smoothing_method := SMOOTH_KEEPING_EDGES,
                     wants_automatic_object_size := false, object_size := d} img =
      Except.ok (FilterCall.bilateralCall img.pixel_data img.mask (d / 2.35)
        s.sigma_range) ∧
    dispatch {s with smoothing_method := FIT_POLYNOMIAL,
                     wants_automatic_object_size := false, object_size := d} img =
      Except.ok (FilterCall.polynomialCall img.pixel_data img.mask) ∧
    dispatch {s with smoothing_method := CIRCULAR_AVERAGE_FILTER,
                     wants_automatic_object_size := false, object_size := d} img =
      Except.ok (FilterCall.circularAverageCall img.pixel_data (d / 2 + 1)
        img.mask) := by
  exact ⟨rfl, rfl, rfl, rfl, rfl, rfl⟩

/-- Witness for the amended C3 at the concrete diameter -1. -/
theorem manual_mode_has_no_diameter_validation_witness :
    (-1 : ℚ) ≤ 0 ∧
    resolveObjectSize false (-1) (gridShape img0.pixel_data) = -1 ∧
    dispatch {s0 with smoothing_method := MEDIAN_FILTER,
                      wants_automatic_object_size := false, object_size := -1} img0 =
      Except.ok (FilterCall.medianCall img0.pixel_data img0.mask ((-1) / 2 + 1)) := by
  have h := manual_mode_has_no_diameter_validation s0 img0 (-1) (by norm_num)
  exact ⟨by norm_num, h.1, h.2.2.1⟩

/-- Claim C4: for every method tag outside the five enumerated values, the
dispatcher fails with a configuration error whose message identifies the
offending tag, and produces no filter invocation. -/
theorem unsupported_method_errors (s : SmoothSettings) (img : CPImage)
    (h1 : s.smoothing_method ≠ GAUSSIAN_FILTER)
    (h2 : s.smoothing_method ≠ MEDIAN_FILTER)
    (h3 : s.smoothing_method ≠ SMOOTH_KEEPING_EDGES)
    (h4 : s.smoothing_method ≠ FIT_POLYNOMIAL)
    (h5 : s.smoothing_method ≠ CIRCULAR_AVERAGE_FILTER) :
    dispatch s img =
      Except.error ("Unsupported smoothing method: " ++ s.smoothing_method) := by
  unfold dispatch
  simp [h1, h2, h3, h4, h5]

/-- Witness for C4 at the concrete unsupported tag "Tophat". -/
theorem unsupported_method_errors_witness :
    dispatch {s0 with smoothing_method := "Tophat"} img0 =
      Except.error ("Unsupported smoothing method: " ++ "Tophat") :=
  unsupported_method_errors {s0 with smoothing_method := "Tophat"} img0
    (by decide) (by decide) (by decide) (by decide) (by decide)

/-- Claim C5: sigmaRange is consumed only by the Bilateral method - for every
other method, two runs that differ only in the sigma-range setting produce
identical results. -/
theorem sigma_range_only_affects_bilateral (wS : ℚ → ℤ → ℤ → ℚ) (wI : ℚ → ℚ → ℚ)
    (pf : Grid → MaskGrid → ℚ × ℚ × ℚ × ℚ × ℚ × ℚ)
    (s : SmoothSettings) (iset : List (String × CPImage)) (r₁ r₂ : ℚ)
    (h : s.smoothing_method ≠ SMOOTH_KEEPING_EDGES) :
    Smooth.run wS wI pf {s with sigma_range := r₁} iset =
    Smooth.run wS wI pf {s with sigma_range := r₂} iset :=
  run_congr wS wI pf _ _ iset rfl rfl fun img => dispatch_sigma_range s img r₁ r₂ h

/-- Witness for C5: polynomial-fit runs with sigma-range 0 and 1 coincide. -/
theorem sigma_range_only_affects_bilateral_witness :
    Smooth.run wS0 wI0 pf0 {s0 with sigma_range := 0} iset0 =
    Smooth.run wS0 wI0 pf0 {s0 with sigma_range := 1} iset0 :=
  sigma_range_only_affects_bilateral wS0 wI0 pf0 s0 iset0 0 1 (by decide)

/-- Claim C8: whatever filter the dispatcher selects, whenever that filter
produces an output grid, it has exactly the shape of the input image's pixel
data - for all five methods and for every weight family and coefficient
solver.  (The polynomial fit produces no output on an underdetermined system,
spec 4.7.) -/
theorem output_shape_equals_input_shape (wS : ℚ → ℤ → ℤ → ℚ) (wI : ℚ → ℚ → ℚ)
    (pf : Grid → MaskGrid → ℚ × ℚ × ℚ × ℚ × ℚ × ℚ)
    (s : SmoothSettings) (img : CPImage) (c : FilterCall) (out : Grid)
    (hd : dispatch s img = Except.ok c)
    (hf : applyFilterCall wS wI pf c = Except.ok out) :
    gridShape out = gridShape img.pixel_data := by
  rw [gridShape_applyFilterCall wS wI pf c out hf, dispatch_ok_baseImage s img c hd]

/-- Witness for C8 on the 2x3 image with 6 valid pixels and the polynomial
method, whose fit is determined and succeeds. -/
theorem output_shape_equals_input_shape_witness :
    gridShape ([[0, 0, 0], [0, 0, 0]] : Grid) = gridShape img1.pixel_data :=
  output_shape_equals_input_shape wS0 wI0 pf0 s0 img1
    (FilterCall.polynomialCall img1.pixel_data img1.mask)
    [[0, 0, 0], [0, 0, 0]] rfl
    (by simp [applyFilterCall, fit_polynomial, countValid, pixelMap, pf0, img1,
      CPImage.pixel_data, CPImage.mask, List.range_succ])

/-- Claim C9: with the polynomial-fit method, the run result is independent of
the automatic-sizing flag and the object-size setting, because the polynomial
fitter receives only the pixel array and the mask. -/
theorem polynomial_fit_ignores_sizing (wS : ℚ → ℤ → ℤ → ℚ) (wI : ℚ → ℚ → ℚ)
    (pf : Grid → MaskGrid → ℚ × ℚ × ℚ × ℚ × ℚ × ℚ)
    (s : SmoothSettings) (iset : List (String × CPImage))
    (a₁ a₂ : Bool) (d₁ d₂ : ℚ) :
    Smooth.run wS wI pf
      {s with smoothing_method := FIT_POLYNOMIAL,
              wants_automatic_object_size := a₁, object_size := d₁} iset =
    Smooth.run wS wI pf
      {s with smoothing_method := FIT_POLYNOMIAL,
              wants_automatic_object_size := a₂, object_size := d₂} iset :=
  run_congr wS wI pf _ _ iset rfl rfl fun img => by
    rw [dispatch_poly_size s img a₁ d₁, dispatch_poly_size s img a₂ d₂]

/-- Claim C10: a successful run - the input image found, a filter dispatched,
and the filter itself succeeding - appends exactly one entry to the image set,
stored under the caller-chosen output name, whose image is built from the
filter output with the input image as its parent (inheriting its mask); the
input image entry is still found under its name afterwards. -/
theorem run_adds_one_parented_output (wS : ℚ → ℤ → ℤ → ℚ) (wI : ℚ → ℚ → ℚ)
    (pf : Grid → MaskGrid → ℚ × ℚ × ℚ × ℚ × ℚ × ℚ)
    (s : SmoothSettings) (iset : List (String × CPImage))
    (img : CPImage) (c : FilterCall) (out : Grid)
    (hl : lookupImage iset s.image_name = some img)
    (hd : dispatch s img = Except.ok c)
    (hf : applyFilterCall wS wI pf c = Except.ok out) :
    Smooth.run wS wI pf s iset =
      Except.ok (iset ++ [(s.filtered_image_name,
        CPImage.mk out img.mask (some img))]) ∧
    (iset ++ [(s.filtered_image_name,
        CPImage.mk out img.mask (some img))]).length = iset.length + 1 ∧
    lookupImage (iset ++ [(s.filtered_image_name,
        CPImage.mk out img.mask (some img))]) s.image_name = some img := by
  refine ⟨?_, by simp, lookupImage_append_of_some iset _ s.image_name img hl⟩
  unfold Smooth.run
  rw [hl]
  dsimp only
  rw [hd]
  dsimp only
  rw [hf]

/-- Witness for C10 on the image set holding the 2x3 image with 6 valid
pixels, polynomial method: the fit is determined, the run succeeds. -/
theorem run_adds_one_parented_output_witness :
    Smooth.run wS0 wI0 pf0 s0 iset1 =
      Except.ok (iset1 ++ [(s0.filtered_image_name,
        CPImage.mk [[0, 0, 0], [0, 0, 0]] img1.mask (some img1))]) ∧
    (iset1 ++ [(s0.filtered_image_name,
        CPImage.mk [[0, 0, 0], [0, 0, 0]] img1.mask (some img1))]).length =
      iset1.length + 1 ∧
    lookupImage (iset1 ++ [(s0.filtered_image_name,
        CPImage.mk [[0, 0, 0], [0, 0, 0]] img1.mask (some img1))])
      s0.image_name = some img1 :=
  run_adds_one_parented_output wS0 wI0 pf0 s0 iset1 img1
    (FilterCall.polynomialCall img1.pixel_data img1.mask)
    [[0, 0, 0], [0, 0, 0]] rfl rfl
    (by simp [applyFilterCall, fit_polynomial, countValid, pixelMap, pf0, img1,
      CPImage.pixel_data, CPImage.mask, List.range_succ])
